import Mathlib

/-!
Shallow embedding of the immiplanner-ai AI service layer
(`getAIClient`, `fileToGenerativePart`, `parseResume`, `analyzeProfile`
from the Gemini service module bundled in `src/vite.config.ts`).

JavaScript promise/async semantics are modelled explicitly: an async call
either resolves with a value, rejects with an error, or stays pending
forever (a promise whose executor never calls `resolve` or `reject`).
External collaborators (the environment variable, the `FileReader` result,
the outcome of `ai.models.generateContent`, and `JSON.parse` on the
returned text) are supplied as an explicit environment record, over which
theorems quantify.  Side effects (`console.error` and the single network
call) are modelled as an ordered trace of effects returned alongside the
outcome.
-/

/-- JavaScript `Error` values thrown or rejected in this module. -/
inductive JsError : Type where
  /-- The `new Error("Missing Gemini API Key")` thrown by `getAIClient`. -/
  | missingApiKey : JsError
  /-- The `new Error("No response returned")` thrown inside `analyzeProfile`. -/
  | noResponse : JsError
  /-- A `SyntaxError` thrown by `JSON.parse`. -/
  | jsonSyntaxError (msg : String) : JsError
  /-- A rejection coming out of `ai.models.generateContent`. -/
  | networkError (msg : String) : JsError
  deriving DecidableEq, Repr

/-- Outcome of awaiting a JavaScript promise: it settles by resolving or
rejecting, or it stays pending forever (never settles). -/
inductive POutcome (α : Type) : Type where
  | resolved (a : α) : POutcome α
  | rejected (e : JsError) : POutcome α
  | pending : POutcome α
  deriving DecidableEq, Repr

/-- Observable side effects of the service functions: `console.error`
logging (identified by the literal first argument) and the single
`generateContent` network call (recorded with the model identifier and
the text contents of the request). -/
inductive Effect : Type where
  | consoleError (tag : String) : Effect
  | networkCall (model : String) (contents : String) : Effect
  deriving DecidableEq, Repr

/-- JavaScript truthiness of a possibly-undefined string
(`undefined`, `null` and `""` are falsy). -/
def jsTruthy : Option String → Bool
  | none => false
  | some s => s ≠ ""

/-- The constructed model client (`new GoogleGenerativeAI(apiKey)`). -/
structure GoogleGenerativeAI : Type where
  apiKey : String
  deriving DecidableEq, Repr

/-- Function `getAIClient` (source lines 32-41): reads the credential from the
environment; if it is falsy, logs `"❌ Gemini API Key Missing!"` and throws
`Error("Missing Gemini API Key")`; otherwise returns the client.  The
returned trace holds the effects performed (no network call is issued). -/
def getAIClient (envApiKey : Option String) :
    Except JsError GoogleGenerativeAI × List Effect :=
  match envApiKey with
  | none => (.error .missingApiKey, [.consoleError "❌ Gemini API Key Missing!"])
  | some s =>
    if s = "" then (.error .missingApiKey, [.consoleError "❌ Gemini API Key Missing!"])
    else (.ok ⟨s⟩, [])

/-- A browser `File`: only its MIME `type` is consulted by this module. -/
structure JsFile : Type where
  type : String
  deriving DecidableEq, Repr

/-- The `inlineData` payload built from a file: base64 `data` (possibly
`undefined` when the data URL has no comma) and the MIME type. -/
structure GenerativePart : Type where
  data : Option String
  mimeType : String
  deriving DecidableEq, Repr

/-- Function `fileToGenerativePart` (source lines 44-57).  `readerResult` is the
`FileReader.result` observed at `loadend`: `some dataUrl` on a successful
read, `none` (JavaScript `null`) when the read failed.  On success the
promise resolves with the substring after the first comma.  On a failed
read, `(reader.result as string).split(',')` throws inside the `onloadend`
handler before `resolve` is called, so the promise never settles. -/
def fileToGenerativePart (file : JsFile) (readerResult : Option String) :
    POutcome GenerativePart :=
  match readerResult with
  | none => .pending
  | some dataUrl => .resolved ⟨(dataUrl.splitOn ",").get? 1, file.type⟩

/-- A `generateContent` response as consumed here: only its `text`
field (a string or `undefined`) is read. -/
structure GenResponse : Type where
  text : Option String
  deriving DecidableEq, Repr

/-- Runtime shape of the JSON object produced by `JSON.parse` on the
resume-parsing response: every schema property may be present or absent.
Numeric fields carry natural numbers (the only values the claims and the
schema examples exercise; no arithmetic is performed on them). -/
structure ResumeData : Type where
  name : Option String := none
  country : Option String := none
  educationLevel : Option String := none
  fieldOfStudy : Option String := none
  workExperienceYears : Option Nat := none
  englishScore : Option Nat := none
  deriving DecidableEq, Repr

/-- Modelled from the spec: the partial `UserProfile` produced by
ingestion (`../types` is not in the sources).  Each field is optional;
the embedding identifies an absent key with an `undefined` value, which
is how the code itself observes them (`=== undefined`). -/
structure PartialProfile : Type where
  name : Option String := none
  countryOfResidence : Option String := none
  educationLevel : Option String := none
  fieldOfStudy : Option String := none
  workExperienceYears : Option Nat := none
  englishScore : Option Nat := none
  deriving DecidableEq, Repr

/-- The empty partial profile `{}` returned on every absorbed failure. -/
def emptyProfile : PartialProfile := {}

/-- The field mapping applied to a successfully parsed resume response
(source lines 98-105): `country` maps to `countryOfResidence` through
`data.country || undefined`, so a falsy `country` becomes `undefined`. -/
def mapResumeData (data : ResumeData) : PartialProfile :=
  { name := data.name
    countryOfResidence := if jsTruthy data.country then data.country else none
    educationLevel := data.educationLevel
    fieldOfStudy := data.fieldOfStudy
    workExperienceYears := data.workExperienceYears
    englishScore := data.englishScore }

/-- The fixed instructional prompt of `parseResume` (source lines 68-71). -/
def resumePrompt : String :=
  "\n      You are an intelligent immigration resume parser...\n      (rest of your original prompt remains same...)\n    "

/-- External world observed by one `parseResume` call: the credential,
the `FileReader` result, the settled outcome of the `generateContent`
call, and the behaviour of `JSON.parse` on response text. -/
structure ResumeEnv : Type where
  apiKey : Option String
  readerResult : Option String
  request : Except JsError GenResponse
  jsonParse : String → Except JsError ResumeData

/-- Function `parseResume` (source lines 62-113).  `getAIClient()` runs before the
`try` block, so a missing credential rejects the returned promise.  Inside
the `try`, the file is encoded (a failed read leaves the call pending
forever), one network request is issued, and the response text — when
truthy — is parsed and mapped; every thrown error is caught, logged as
`"Error parsing resume:"`, and converted to the empty partial profile. -/
def parseResume (file : JsFile) (env : ResumeEnv) :
    POutcome PartialProfile × List Effect :=
  match getAIClient env.apiKey with
  | (.error e, fx) => (.rejected e, fx)
  | (.ok _ai, fx) =>
    match fileToGenerativePart file env.readerResult with
    | .pending => (.pending, fx)
    | .rejected _e => (.resolved emptyProfile, fx ++ [.consoleError "Error parsing resume:"])
    | .resolved _filePart =>
      let fx := fx ++ [.networkCall "gemini-2.5-flash" resumePrompt]
      match env.request with
      | .error _e => (.resolved emptyProfile, fx ++ [.consoleError "Error parsing resume:"])
      | .ok response =>
        match response.text with
        | none => (.resolved emptyProfile, fx)
        | some t =>
          if t = "" then (.resolved emptyProfile, fx)
          else
            match env.jsonParse t with
            | .error _e => (.resolved emptyProfile, fx ++ [.consoleError "Error parsing resume:"])
            | .ok data => (.resolved (mapResumeData data), fx)

/-- Modelled from the spec: language-test details (`../types` is not in
the sources) — a test type, an overall score and four sub-scores.  Scores
are natural numbers, matching every example in the spec; they are only
ever rendered, never computed with. -/
structure LanguageDetails : Type where
  testType : String
  overallScore : Nat
  reading : Nat
  writing : Nat
  listening : Nat
  speaking : Nat
  deriving DecidableEq, Repr

/-- Modelled from the spec: the full `UserProfile` consumed by analysis
(`../types` is not in the sources): demographic and qualification fields,
with optional English and French test details. -/
structure UserProfile : Type where
  name : String
  age : Nat
  countryOfResidence : String
  educationLevel : String
  fieldOfStudy : String
  workExperienceYears : Nat
  savings : Nat
  settlementFunds : Nat
  languageDetails : Option LanguageDetails := none
  frenchDetails : Option LanguageDetails := none
  deriving DecidableEq, Repr

/-- Modelled from the spec: the `UserType` discriminator (`../types` is
not in the sources) — Student versus Skilled Worker. -/
inductive UserType : Type where
  | Student : UserType
  | SkilledWorker : UserType
  deriving DecidableEq, Repr

/-- The student branch of instructional text (source lines 130-133). -/
def studentInstructions : String :=
  "\n      CONTEXT: USER IS A STUDENT...\n      (your original student logic here)\n    "

/-- The default / skilled-worker branch (source lines 135-138). -/
def workerInstructions : String :=
  "\n      CONTEXT: USER IS A SKILLED WORKER...\n      (your original worker logic here)\n    "

/-- The `userType` dispatch (source lines 126-139): `Student` selects the
student text, everything else the worker text. -/
def specificInstructions (userType : UserType) : String :=
  if userType = UserType.Student then studentInstructions else workerInstructions

/-- The rendered summary line for a present language test (the
interpolation of source line 145 / 151). -/
def languageLine (lt : LanguageDetails) : String :=
  lt.testType ++ " - Overall:" ++ toString lt.overallScore ++
    ", R:" ++ toString lt.reading ++ ", W:" ++ toString lt.writing ++
    ", L:" ++ toString lt.listening ++ ", S:" ++ toString lt.speaking

/-- Function `englishInfo` (source lines 142-146): the full summary line whenever
`languageDetails` is present — no sentinel check — and `"N/A"` otherwise. -/
def englishInfo (profile : UserProfile) : String :=
  match profile.languageDetails with
  | none => "N/A"
  | some lt => languageLine lt

/-- Function `frenchInfo` (source lines 148-152): the full summary line only when
`frenchDetails` is present and its `testType` is not the `"None"`
sentinel; `"None"` otherwise. -/
def frenchInfo (profile : UserProfile) : String :=
  match profile.frenchDetails with
  | none => "None"
  | some fr => if fr.testType ≠ "None" then languageLine fr else "None"

/-- Function `commonPrompt` (source lines 154-165): the flat profile text block. -/
def commonPrompt (profile : UserProfile) : String :=
  "\n    Profile:\n    Name: " ++ profile.name ++
  "\n    Age: " ++ toString profile.age ++
  "\n    Country: " ++ profile.countryOfResidence ++
  "\n    Education: " ++ profile.educationLevel ++
  "\n    Work Experience: " ++ toString profile.workExperienceYears ++
  "\n    English: " ++ englishInfo profile ++
  "\n    French: " ++ frenchInfo profile ++
  "\n    Savings: " ++ toString profile.savings ++
  "\n    Settlement Funds: " ++ toString profile.settlementFunds ++
  "\n  "

/-- The full `contents` string of the analysis request (source
lines 170-176). -/
def analysisContents (profile : UserProfile) (userType : UserType) : String :=
  "\n        " ++ specificInstructions userType ++
  "\n        " ++ commonPrompt profile ++
  "\n\n        Produce structured JSON output...\n        (your original schema rules unchanged)\n      "

/-- Runtime shape of the `futureCrsPredictions` object: the response
schema leaves it an unconstrained object, so each of the four scenario
keys may be present or absent. -/
structure FutureCrsPredictions : Type where
  current : Option Nat := none
  oneYearStudy : Option Nat := none
  twoYearStudy : Option Nat := none
  twoYearStudyPlusWork : Option Nat := none
  deriving DecidableEq, Repr

/-- Runtime shape of an `AIAnalysisResult` value as it actually crosses
the boundary: `JSON.parse(response.text) as AIAnalysisResult` is an
unchecked cast and the response schema declares no `required` properties,
so every field may be absent.  Loose array items (pathways, advice) are
modelled by their JSON serializations as strings. -/
structure AIAnalysisResult : Type where
  overallSuccessProbability : Option Nat := none
  crsScorePrediction : Option Nat := none
  riskFactors : Option (List String) := none
  strengths : Option (List String) := none
  assumptions : Option (List String) := none
  recommendedPathways : Option (List String) := none
  otherPathways : Option (List String) := none
  strategicAdvice : Option (List String) := none
  futureCrsPredictions : Option FutureCrsPredictions := none
  deriving DecidableEq, Repr

/-- The fixed fallback literal (source lines 205-223). -/
def fallbackResult : AIAnalysisResult :=
  { overallSuccessProbability := some 72
    crsScorePrediction := some 310
    riskFactors := some ["Missing language test"]
    strengths := some ["Good financial support"]
    assumptions := some ["Assumed CLB 5 for missing IELTS"]
    recommendedPathways := some []
    otherPathways := some []
    strategicAdvice := some ["Improve English score",
      "Consider 2-year study leading to PGWP"]
    futureCrsPredictions := some
      { current := some 310
        oneYearStudy := some 335
        twoYearStudy := some 360
        twoYearStudyPlusWork := some 470 } }

/-- External world observed by one `analyzeProfile` call. -/
structure AnalyzeEnv : Type where
  apiKey : Option String
  request : Except JsError GenResponse
  jsonParse : String → Except JsError AIAnalysisResult

/-- Function `analyzeProfile` (source lines 119-225).  `getAIClient()` runs before
the `try` block, so a missing credential rejects the returned promise.
Otherwise one network request is issued; truthy response text is parsed
and returned as-is, falsy text raises `Error("No response returned")`,
and every error thrown inside the `try` is caught, logged as
`"Error analyzing profile:"`, and converted to the fixed fallback. -/
def analyzeProfile (profile : UserProfile) (userType : UserType)
    (env : AnalyzeEnv) : POutcome AIAnalysisResult × List Effect :=
  match getAIClient env.apiKey with
  | (.error e, fx) => (.rejected e, fx)
  | (.ok _ai, fx) =>
    let fx := fx ++ [.networkCall "gemini-2.5-flash" (analysisContents profile userType)]
    match env.request with
    | .error _e => (.resolved fallbackResult, fx ++ [.consoleError "Error analyzing profile:"])
    | .ok response =>
      match response.text with
      | none => (.resolved fallbackResult, fx ++ [.consoleError "Error analyzing profile:"])
      | some t =>
        if t = "" then (.resolved fallbackResult, fx ++ [.consoleError "Error analyzing profile:"])
        else
          match env.jsonParse t with
          | .error _e => (.resolved fallbackResult, fx ++ [.consoleError "Error analyzing profile:"])
          | .ok result => (.resolved result, fx)

/-! ## Helper lemmas -/

/-- A truthy credential makes `getAIClient` return the client silently. -/
theorem getAIClient_ok (s : String) (h : s ≠ "") :
    getAIClient (some s) = (Except.ok ⟨s⟩, []) := by
  simp [getAIClient, h]

/-- Decomposition of the rendered profile text around the English and
French summary lines. -/
theorem commonPrompt_decompose (p : UserProfile) :
    commonPrompt p =
      ("\n    Profile:\n    Name: " ++ p.name ++ "\n    Age: " ++ toString p.age ++
        "\n    Country: " ++ p.countryOfResidence ++ "\n    Education: " ++
        p.educationLevel ++ "\n    Work Experience: " ++
        toString p.workExperienceYears ++ "\n    ") ++
      ("English: " ++ englishInfo p) ++
      ("\n    " ++ ("French: " ++ frenchInfo p) ++
        ("\n    Savings: " ++ toString p.savings ++ "\n    Settlement Funds: " ++
          toString p.settlementFunds ++ "\n  ")) := by
  rw [commonPrompt,
    show ("\n    English: " : String) = "\n    " ++ "English: " from by decide,
    show ("\n    French: " : String) = "\n    " ++ "French: " from by decide]
  simp only [String.append_assoc]

/-- The summary line of a language test is never the `"N/A"` substitute:
it is at least 26 characters long. -/
theorem languageLine_ne_NA (lt : LanguageDetails) : languageLine lt ≠ "N/A" := by
  intro h
  have hlen := congrArg String.length h
  simp only [languageLine, String.length_append] at hlen
  have h3 : ("N/A" : String).length = 3 := by decide
  have h11 : (" - Overall:" : String).length = 11 := by decide
  have h4 : (", R:" : String).length = 4 := by decide
  have h4b : (", W:" : String).length = 4 := by decide
  have h4c : (", L:" : String).length = 4 := by decide
  have h4d : (", S:" : String).length = 4 := by decide
  rw [h3, h11, h4, h4b, h4c, h4d] at hlen
  omega

/-! ## Sample data used by witnesses -/

/-- IELTS details from spec property P7. -/
def ieltsDetails : LanguageDetails :=
  { testType := "IELTS", overallScore := 7, reading := 7, writing := 6,
    listening := 8, speaking := 7 }

/-- A concrete fully-populated profile. -/
def sampleProfile : UserProfile :=
  { name := "Asha", age := 29, countryOfResidence := "India",
    educationLevel := "Bachelor", fieldOfStudy := "Computer Science",
    workExperienceYears := 5, savings := 20000, settlementFunds := 15000,
    languageDetails := some ieltsDetails, frenchDetails := none }

/-- The sample profile with French details carrying the `"None"` sentinel. -/
def frenchNoneProfile : UserProfile :=
  { sampleProfile with
    frenchDetails := some
      { testType := "None", overallScore := 6, reading := 6, writing := 6,
        listening := 6, speaking := 6 } }

/-- The sample profile whose English test type is the `"None"` sentinel. -/
def englishNoneProfile : UserProfile :=
  { sampleProfile with
    languageDetails := some
      { testType := "None", overallScore := 4, reading := 4, writing := 4,
        listening := 4, speaking := 4 } }

/-! ## Claim theorems -/

/-- C6: in the rendered profile text, a present English test renders the
single summary line `TestType - Overall:X, R:r, W:w, L:l, S:s` after the
`English: ` label, and `"N/A"` is substituted when no details are
present. -/
theorem C6_english_line (profile : UserProfile) :
    (∀ lt, profile.languageDetails = some lt →
      ∃ a b, commonPrompt profile =
        a ++ ("English: " ++ (lt.testType ++ " - Overall:" ++ toString lt.overallScore ++
          ", R:" ++ toString lt.reading ++ ", W:" ++ toString lt.writing ++
          ", L:" ++ toString lt.listening ++ ", S:" ++ toString lt.speaking)) ++ b) ∧
    (profile.languageDetails = none →
      ∃ a b, commonPrompt profile = a ++ "English: N/A" ++ b) := by
  constructor
  · intro lt h
    have he : englishInfo profile =
        lt.testType ++ " - Overall:" ++ toString lt.overallScore ++
          ", R:" ++ toString lt.reading ++ ", W:" ++ toString lt.writing ++
          ", L:" ++ toString lt.listening ++ ", S:" ++ toString lt.speaking := by
      simp [englishInfo, h, languageLine]
    exact ⟨_, _, by rw [commonPrompt_decompose, he]⟩
  · intro h
    have he : englishInfo profile = "N/A" := by simp [englishInfo, h]
    refine ⟨"\n    Profile:\n    Name: " ++ profile.name ++ "\n    Age: " ++
      toString profile.age ++ "\n    Country: " ++ profile.countryOfResidence ++
      "\n    Education: " ++ profile.educationLevel ++ "\n    Work Experience: " ++
      toString profile.workExperienceYears ++ "\n    ",
      "\n    " ++ ("French: " ++ frenchInfo profile) ++
        ("\n    Savings: " ++ toString profile.savings ++
          "\n    Settlement Funds: " ++ toString profile.settlementFunds ++ "\n  "), ?_⟩
    rw [commonPrompt_decompose, he,
      show ("English: " ++ "N/A" : String) = "English: N/A" from by decide]

/-- Witness for C6 at the concrete IELTS details of spec property P7. -/
theorem C6_witness :
    sampleProfile.languageDetails = some ieltsDetails ∧
    ∃ a b, commonPrompt sampleProfile =
      a ++ "English: IELTS - Overall:7, R:7, W:6, L:8, S:7" ++ b := by
  refine ⟨rfl, ?_⟩
  obtain ⟨a, b, hab⟩ := (C6_english_line sampleProfile).1 ieltsDetails rfl
  refine ⟨a, b, ?_⟩
  rw [hab]
  congr 1

/-- C7: whenever `frenchDetails.testType` is the `"None"` sentinel (or
`frenchDetails` is absent), the French line of the rendered profile text
is `"None"`, regardless of any other French sub-scores. -/
theorem C7_french_none_sentinel (profile : UserProfile)
    (h : profile.frenchDetails = none ∨
      ∃ fr, profile.frenchDetails = some fr ∧ fr.testType = "None") :
    frenchInfo profile = "None" ∧
    ∃ a b, commonPrompt profile = a ++ "French: None" ++ b := by
  have hf : frenchInfo profile = "None" := by
    rcases h with h | ⟨fr, hfr, hN⟩
    · simp [frenchInfo, h]
    · simp [frenchInfo, hfr, hN]
  refine ⟨hf, ?_⟩
  refine ⟨("\n    Profile:\n    Name: " ++ profile.name ++ "\n    Age: " ++
      toString profile.age ++ "\n    Country: " ++ profile.countryOfResidence ++
      "\n    Education: " ++ profile.educationLevel ++ "\n    Work Experience: " ++
      toString profile.workExperienceYears ++ "\n    ") ++
      ("English: " ++ englishInfo profile) ++ "\n    ",
    "\n    Savings: " ++ toString profile.savings ++
      "\n    Settlement Funds: " ++ toString profile.settlementFunds ++ "\n  ", ?_⟩
  rw [commonPrompt_decompose, hf,
    show ("French: " ++ "None" : String) = "French: None" from by decide]
  simp only [String.append_assoc]

/-- Witness for C7 at a profile whose French details carry the `"None"`
sentinel together with populated sub-scores. -/
theorem C7_witness :
    frenchInfo frenchNoneProfile = "None" ∧
    ∃ a b, commonPrompt frenchNoneProfile = a ++ "French: None" ++ b :=
  C7_french_none_sentinel frenchNoneProfile
    (Or.inr ⟨_, rfl, rfl⟩)

/-- C10: the `"None"` sentinel suppresses rendering only for French —
English details with `testType = "None"` still render the full summary
line (never `"N/A"`), while the same details as French render `"None"`. -/
theorem C10_english_ignores_sentinel (profile : UserProfile)
    (lt : LanguageDetails) (h : profile.languageDetails = some lt)
    (hN : lt.testType = "None") :
    englishInfo profile = "None" ++ " - Overall:" ++ toString lt.overallScore ++
      ", R:" ++ toString lt.reading ++ ", W:" ++ toString lt.writing ++
      ", L:" ++ toString lt.listening ++ ", S:" ++ toString lt.speaking ∧
    englishInfo profile ≠ "N/A" ∧
    (∀ fr, profile.frenchDetails = some fr → fr.testType = "None" →
      frenchInfo profile = "None") := by
  have he : englishInfo profile = languageLine lt := by simp [englishInfo, h]
  refine ⟨?_, ?_, ?_⟩
  · rw [he]
    simp [languageLine, hN]
  · rw [he]
    exact languageLine_ne_NA lt
  · intro fr hfr hfrN
    simp [frenchInfo, hfr, hfrN]

/-- Witness for C10 at a profile whose English test type is `"None"`. -/
theorem C10_witness :
    englishInfo englishNoneProfile = "None - Overall:4, R:4, W:4, L:4, S:4" ∧
    englishInfo englishNoneProfile ≠ "N/A" := by
  have h := C10_english_ignores_sentinel englishNoneProfile
    { testType := "None", overallScore := 4, reading := 4, writing := 4,
      listening := 4, speaking := 4 } rfl rfl
  exact ⟨h.1.trans (by decide), h.2.1⟩

/-- A truthy credential is a nonempty string. -/
theorem jsTruthy_elim {k : Option String} (h : jsTruthy k = true) :
    ∃ s, k = some s ∧ s ≠ "" := by
  cases k with
  | none => simp [jsTruthy] at h
  | some s => exact ⟨s, rfl, by simpa [jsTruthy] using h⟩

/-- With a truthy credential, `analyzeProfile` resolves with the fallback
whenever the request rejects, the response text is falsy, or the parse
fails. -/
theorem analyzeProfile_fallback_of_failure (profile : UserProfile)
    (userType : UserType) (env : AnalyzeEnv) (h : jsTruthy env.apiKey = true)
    (hfail : (∃ e, env.request = Except.error e) ∨
      (∃ resp, env.request = Except.ok resp ∧ jsTruthy resp.text = false) ∨
      (∃ resp t e, env.request = Except.ok resp ∧ resp.text = some t ∧
        env.jsonParse t = Except.error e)) :
    (analyzeProfile profile userType env).1 = POutcome.resolved fallbackResult := by
  obtain ⟨s, hk, hs⟩ := jsTruthy_elim h
  rcases hfail with ⟨e, hr⟩ | ⟨resp, hr, htf⟩ | ⟨resp, t, e, hr, ht, hp⟩
  · simp [analyzeProfile, getAIClient, hk, hs, hr]
  · rcases ht : resp.text with _ | t
    · simp [analyzeProfile, getAIClient, hk, hs, hr, ht]
    · have hts : t = "" := by
        rw [ht] at htf
        simpa [jsTruthy] using htf
      simp [analyzeProfile, getAIClient, hk, hs, hr, ht, hts]
  · by_cases hts : t = ""
    · simp [analyzeProfile, getAIClient, hk, hs, hr, ht, hts]
    · simp [analyzeProfile, getAIClient, hk, hs, hr, ht, hts, hp]

/-- With a truthy credential, `analyzeProfile` resolves with the parsed
result when the request succeeds with truthy text that parses. -/
theorem analyzeProfile_success (profile : UserProfile) (userType : UserType)
    (env : AnalyzeEnv) (h : jsTruthy env.apiKey = true) (resp : GenResponse)
    (hr : env.request = Except.ok resp) (t : String) (ht : resp.text = some t)
    (hts : t ≠ "") (r : AIAnalysisResult) (hp : env.jsonParse t = Except.ok r) :
    (analyzeProfile profile userType env).1 = POutcome.resolved r := by
  obtain ⟨s, hk, hs⟩ := jsTruthy_elim h
  simp [analyzeProfile, getAIClient, hk, hs, hr, ht, hts, hp]

/-- With a truthy credential, `analyzeProfile` always settles by
resolving with some analysis value. -/
theorem analyzeProfile_resolves (profile : UserProfile) (userType : UserType)
    (env : AnalyzeEnv) (h : jsTruthy env.apiKey = true) :
    ∃ r, (analyzeProfile profile userType env).1 = POutcome.resolved r := by
  rcases hr : env.request with e | resp
  · exact ⟨fallbackResult,
      analyzeProfile_fallback_of_failure _ _ _ h (Or.inl ⟨e, hr⟩)⟩
  · rcases ht : resp.text with _ | t
    · exact ⟨fallbackResult, analyzeProfile_fallback_of_failure _ _ _ h
        (Or.inr (Or.inl ⟨resp, hr, by simp [jsTruthy, ht]⟩))⟩
    · by_cases hts : t = ""
      · exact ⟨fallbackResult, analyzeProfile_fallback_of_failure _ _ _ h
          (Or.inr (Or.inl ⟨resp, hr, by simp [jsTruthy, ht, hts]⟩))⟩
      · rcases hp : env.jsonParse t with e | r
        · exact ⟨fallbackResult, analyzeProfile_fallback_of_failure _ _ _ h
            (Or.inr (Or.inr ⟨resp, t, e, hr, ht, hp⟩))⟩
        · exact ⟨r, analyzeProfile_success _ _ _ h resp hr t ht hts r hp⟩

/-- With a truthy credential, `analyzeProfile` issues exactly one network
call, whose contents are the selected instructions followed by the
rendered profile text. -/
theorem analyzeProfile_networkCall (profile : UserProfile)
    (userType : UserType) (env : AnalyzeEnv) (h : jsTruthy env.apiKey = true) :
    Effect.networkCall "gemini-2.5-flash" (analysisContents profile userType) ∈
      (analyzeProfile profile userType env).2 := by
  obtain ⟨s, hk, hs⟩ := jsTruthy_elim h
  rcases hr : env.request with e | resp
  · simp [analyzeProfile, getAIClient, hk, hs, hr]
  · rcases ht : resp.text with _ | t
    · simp [analyzeProfile, getAIClient, hk, hs, hr, ht]
    · by_cases hts : t = ""
      · simp [analyzeProfile, getAIClient, hk, hs, hr, ht, hts]
      · rcases hp : env.jsonParse t with e | r
        · simp [analyzeProfile, getAIClient, hk, hs, hr, ht, hts, hp]
        · simp [analyzeProfile, getAIClient, hk, hs, hr, ht, hts, hp]

/-- With a truthy credential and a successful file read, `parseResume`
resolves with the empty profile whenever the request rejects, the
response text is falsy, or the parse fails. -/
theorem parseResume_empty_of_failure (file : JsFile) (env : ResumeEnv)
    (h : jsTruthy env.apiKey = true) (s : String)
    (hrr : env.readerResult = some s)
    (hfail : (∃ e, env.request = Except.error e) ∨
      (∃ resp, env.request = Except.ok resp ∧ jsTruthy resp.text = false) ∨
      (∃ resp t e, env.request = Except.ok resp ∧ resp.text = some t ∧
        env.jsonParse t = Except.error e)) :
    (parseResume file env).1 = POutcome.resolved emptyProfile := by
  obtain ⟨k, hk, hks⟩ := jsTruthy_elim h
  rcases hfail with ⟨e, hr⟩ | ⟨resp, hr, htf⟩ | ⟨resp, t, e, hr, ht, hp⟩
  · simp [parseResume, getAIClient, fileToGenerativePart, hk, hks, hrr, hr]
  · rcases ht : resp.text with _ | t
    · simp [parseResume, getAIClient, fileToGenerativePart, hk, hks, hrr, hr, ht]
    · have hts : t = "" := by
        rw [ht] at htf
        simpa [jsTruthy] using htf
      simp [parseResume, getAIClient, fileToGenerativePart, hk, hks, hrr, hr, ht, hts]
  · by_cases hts : t = ""
    · simp [parseResume, getAIClient, fileToGenerativePart, hk, hks, hrr, hr, ht, hts]
    · simp [parseResume, getAIClient, fileToGenerativePart, hk, hks, hrr, hr, ht, hts, hp]

/-- With a truthy credential, `parseResume` resolves with the mapped
profile when the read, the request and the parse all succeed with truthy
text. -/
theorem parseResume_success (file : JsFile) (env : ResumeEnv)
    (h : jsTruthy env.apiKey = true) (s : String)
    (hrr : env.readerResult = some s) (resp : GenResponse)
    (hr : env.request = Except.ok resp) (t : String) (ht : resp.text = some t)
    (hts : t ≠ "") (data : ResumeData) (hp : env.jsonParse t = Except.ok data) :
    (parseResume file env).1 = POutcome.resolved (mapResumeData data) := by
  obtain ⟨k, hk, hks⟩ := jsTruthy_elim h
  simp [parseResume, getAIClient, fileToGenerativePart, hk, hks, hrr, hr, ht, hts, hp]

/-- With a truthy credential, a failed file read (`reader.result` null at
`loadend`) leaves the `parseResume` promise pending forever. -/
theorem parseResume_pending_of_failed_read (file : JsFile) (env : ResumeEnv)
    (h : jsTruthy env.apiKey = true) (hrr : env.readerResult = none) :
    (parseResume file env).1 = POutcome.pending := by
  obtain ⟨k, hk, hks⟩ := jsTruthy_elim h
  simp [parseResume, getAIClient, fileToGenerativePart, hk, hks, hrr]

/-- With a truthy credential, `parseResume` never rejects. -/
theorem parseResume_no_reject (file : JsFile) (env : ResumeEnv)
    (h : jsTruthy env.apiKey = true) :
    ∀ e, (parseResume file env).1 ≠ POutcome.rejected e := by
  intro e
  rcases hrr : env.readerResult with _ | s
  · rw [parseResume_pending_of_failed_read file env h hrr]
    simp
  · rcases hr : env.request with e' | resp
    · rw [parseResume_empty_of_failure file env h s hrr (Or.inl ⟨e', hr⟩)]
      simp
    · rcases ht : resp.text with _ | t
      · rw [parseResume_empty_of_failure file env h s hrr
          (Or.inr (Or.inl ⟨resp, hr, by simp [jsTruthy, ht]⟩))]
        simp
      · by_cases hts : t = ""
        · rw [parseResume_empty_of_failure file env h s hrr
            (Or.inr (Or.inl ⟨resp, hr, by simp [jsTruthy, ht, hts]⟩))]
          simp
        · rcases hp : env.jsonParse t with e' | data
          · rw [parseResume_empty_of_failure file env h s hrr
              (Or.inr (Or.inr ⟨resp, t, e', hr, ht, hp⟩))]
            simp
          · rw [parseResume_success file env h s hrr resp hr t ht hts data hp]
            simp

/-! ## Concrete environments used by witnesses and counterexamples -/

/-- An analysis environment whose network request rejects. -/
def failingAnalyzeEnv : AnalyzeEnv :=
  { apiKey := some "test-key"
    request := Except.error (JsError.networkError "fetch failed")
    jsonParse := fun _ => Except.error (JsError.jsonSyntaxError "unexpected token") }

/-- An analysis environment whose response parses to a result object
missing every list field (as allowed by the `required`-less response
schema). -/
def looseAnalysis : AIAnalysisResult := { overallSuccessProbability := some 50 }

/-- The response text whose `JSON.parse` is `looseAnalysis`. -/
def looseAnalyzeEnv : AnalyzeEnv :=
  { apiKey := some "test-key"
    request := Except.ok ⟨some "\x7b\"overallSuccessProbability\":50\x7d"⟩
    jsonParse := fun _ => Except.ok looseAnalysis }

/-- A resume environment in which the file read fails
(`reader.result` is null at `loadend`). -/
def hangResumeEnv : ResumeEnv :=
  { apiKey := some "test-key"
    readerResult := none
    request := Except.ok ⟨some "\x7b\x7d"⟩
    jsonParse := fun _ => Except.ok {} }

/-- A resume environment whose network request rejects after a
successful read. -/
def failingResumeEnv : ResumeEnv :=
  { apiKey := some "test-key"
    readerResult := some "data:application/pdf;base64,QUJD"
    request := Except.error (JsError.networkError "fetch failed")
    jsonParse := fun _ => Except.error (JsError.jsonSyntaxError "unexpected token") }

/-- Parsed resume data from spec property P3 (no `country` key). -/
def parsedNoCountry : ResumeData :=
  { name := some "A", educationLevel := some "B", fieldOfStudy := some "C",
    workExperienceYears := some 5 }

/-- Parsed resume data from spec property P4 (`country: "Canada"`). -/
def parsedCanada : ResumeData :=
  { parsedNoCountry with country := some "Canada" }

/-- A resume environment for the P3 response. -/
def resumeEnvNoCountry : ResumeEnv :=
  { apiKey := some "test-key"
    readerResult := some "data:application/pdf;base64,QUJD"
    request := Except.ok
      ⟨some "\x7b\"name\":\"A\",\"educationLevel\":\"B\",\"fieldOfStudy\":\"C\",\"workExperienceYears\":5\x7d"⟩
    jsonParse := fun _ => Except.ok parsedNoCountry }

/-- A resume environment for the P4 response. -/
def resumeEnvCanada : ResumeEnv :=
  { resumeEnvNoCountry with
    request := Except.ok
      ⟨some "\x7b\"name\":\"A\",\"country\":\"Canada\",\"educationLevel\":\"B\",\"fieldOfStudy\":\"C\",\"workExperienceYears\":5\x7d"⟩
    jsonParse := fun _ => Except.ok parsedCanada }

/-- A sample uploaded file. -/
def sampleFile : JsFile := { type := "application/pdf" }

/-- C1: with the credential present, `analyzeProfile` always resolves
with an analysis result for every profile and user type — it never
rejects — and every failure during the request or parse, including falsy
response text, is converted into the fixed fallback result. -/
theorem C1_analyzeProfile_total (profile : UserProfile) (userType : UserType)
    (env : AnalyzeEnv) (h : jsTruthy env.apiKey = true) :
    (∃ r, (analyzeProfile profile userType env).1 = POutcome.resolved r) ∧
    (∀ e, (analyzeProfile profile userType env).1 ≠ POutcome.rejected e) ∧
    (((∃ e, env.request = Except.error e) ∨
      (∃ resp, env.request = Except.ok resp ∧ jsTruthy resp.text = false) ∨
      (∃ resp t e, env.request = Except.ok resp ∧ resp.text = some t ∧
        env.jsonParse t = Except.error e)) →
      (analyzeProfile profile userType env).1 = POutcome.resolved fallbackResult) := by
  obtain ⟨r, hr⟩ := analyzeProfile_resolves profile userType env h
  exact ⟨⟨r, hr⟩, fun e => by rw [hr]; simp,
    analyzeProfile_fallback_of_failure profile userType env h⟩

/-- Witness for C1: a concrete run whose request rejects still resolves. -/
theorem C1_witness :
    jsTruthy failingAnalyzeEnv.apiKey = true ∧
    ∃ r, (analyzeProfile sampleProfile UserType.Student failingAnalyzeEnv).1 =
      POutcome.resolved r :=
  ⟨by decide,
    (C1_analyzeProfile_total sampleProfile UserType.Student failingAnalyzeEnv
      (by decide)).1⟩

/-- C3: when the model call rejects or the response has no (truthy) text,
`analyzeProfile` returns exactly the fixed fallback literal with the
documented field values. -/
theorem C3_fallback_literal (profile : UserProfile) (userType : UserType)
    (env : AnalyzeEnv) (h : jsTruthy env.apiKey = true)
    (hfail : (∃ e, env.request = Except.error e) ∨
      (∃ resp, env.request = Except.ok resp ∧ jsTruthy resp.text = false)) :
    (analyzeProfile profile userType env).1 = POutcome.resolved fallbackResult ∧
    fallbackResult.overallSuccessProbability = some 72 ∧
    fallbackResult.crsScorePrediction = some 310 ∧
    fallbackResult.riskFactors = some ["Missing language test"] ∧
    fallbackResult.strengths = some ["Good financial support"] ∧
    fallbackResult.assumptions = some ["Assumed CLB 5 for missing IELTS"] ∧
    fallbackResult.recommendedPathways = some [] ∧
    fallbackResult.otherPathways = some [] ∧
    fallbackResult.strategicAdvice =
      some ["Improve English score", "Consider 2-year study leading to PGWP"] ∧
    fallbackResult.futureCrsPredictions = some
      { current := some 310, oneYearStudy := some 335,
        twoYearStudy := some 360, twoYearStudyPlusWork := some 470 } := by
  refine ⟨?_, rfl, rfl, rfl, rfl, rfl, rfl, rfl, rfl, rfl⟩
  exact analyzeProfile_fallback_of_failure profile userType env h
    (hfail.elim Or.inl (fun hx => Or.inr (Or.inl hx)))

/-- Witness for C3 at a concrete rejecting request. -/
theorem C3_witness :
    jsTruthy failingAnalyzeEnv.apiKey = true ∧
    (analyzeProfile sampleProfile UserType.SkilledWorker failingAnalyzeEnv).1 =
      POutcome.resolved fallbackResult ∧
    fallbackResult.overallSuccessProbability = some 72 ∧
    fallbackResult.crsScorePrediction = some 310 :=
  ⟨by decide,
    (C3_fallback_literal sampleProfile UserType.SkilledWorker failingAnalyzeEnv
      (by decide) (Or.inl ⟨JsError.networkError "fetch failed", rfl⟩)).1,
    rfl, rfl⟩

/-- C2 counterexample: with the credential present and a failed file
read, `parseResume` does not resolve with the empty profile — the
encoding promise never settles, so the call stays pending forever
instead of resolving with `{}` as the claim states for an encoding
failure. -/
theorem C2_counterexample :
    (parseResume sampleFile hangResumeEnv).1 = POutcome.pending ∧
    (parseResume sampleFile hangResumeEnv).1 ≠
      POutcome.resolved emptyProfile := by decide

/-- C2 (amended): with the credential present, `parseResume` never
rejects; if the network call or the JSON parse fails, or the response
has no truthy text, it resolves with the empty partial profile; but when
the file read fails (`reader.result` null) the call never settles at
all — it stays pending rather than resolving with `{}`. -/
theorem C2_parseResume_absorbs_failures (file : JsFile) (env : ResumeEnv)
    (h : jsTruthy env.apiKey = true) :
    (∀ e, (parseResume file env).1 ≠ POutcome.rejected e) ∧
    (env.readerResult = none → (parseResume file env).1 = POutcome.pending) ∧
    (∀ s, env.readerResult = some s →
      ((∃ e, env.request = Except.error e) ∨
       (∃ resp, env.request = Except.ok resp ∧ jsTruthy resp.text = false) ∨
       (∃ resp t e, env.request = Except.ok resp ∧ resp.text = some t ∧
         env.jsonParse t = Except.error e)) →
      (parseResume file env).1 = POutcome.resolved emptyProfile) :=
  ⟨parseResume_no_reject file env h,
   parseResume_pending_of_failed_read file env h,
   fun s hrr => parseResume_empty_of_failure file env h s hrr⟩

/-- Witness for amended C2: a concrete run whose network request rejects
resolves with the empty profile and rejects nothing. -/
theorem C2_witness :
    jsTruthy failingResumeEnv.apiKey = true ∧
    (parseResume sampleFile failingResumeEnv).1 =
      POutcome.resolved emptyProfile :=
  ⟨by decide,
    (C2_parseResume_absorbs_failures sampleFile failingResumeEnv (by decide)).2.2
      "data:application/pdf;base64,QUJD" rfl
      (Or.inl ⟨JsError.networkError "fetch failed", rfl⟩)⟩

/-- C4: a falsy credential makes `getAIClient` log the missing-key
message and synchronously throw the missing-credential error without any
network call; both operations then reject with that same error,
untransformed, still without any network call; and a truthy credential
never makes the factory fail. -/
theorem C4_missing_credential (k : Option String) (h : jsTruthy k = false) :
    getAIClient k = (Except.error JsError.missingApiKey,
      [Effect.consoleError "❌ Gemini API Key Missing!"]) ∧
    (∀ m c, Effect.networkCall m c ∉ (getAIClient k).2) ∧
    (∀ file env, env.apiKey = k →
      parseResume file env = (POutcome.rejected JsError.missingApiKey,
        [Effect.consoleError "❌ Gemini API Key Missing!"]) ∧
      ∀ m c, Effect.networkCall m c ∉ (parseResume file env).2) ∧
    (∀ profile userType env, env.apiKey = k →
      analyzeProfile profile userType env =
        (POutcome.rejected JsError.missingApiKey,
          [Effect.consoleError "❌ Gemini API Key Missing!"]) ∧
      ∀ m c, Effect.networkCall m c ∉ (analyzeProfile profile userType env).2) ∧
    (∀ k', jsTruthy k' = true →
      ∃ client, getAIClient k' = (Except.ok client, [])) := by
  have hg : getAIClient k = (Except.error JsError.missingApiKey,
      [Effect.consoleError "❌ Gemini API Key Missing!"]) := by
    cases k with
    | none => rfl
    | some s =>
      have hs : s = "" := by simpa [jsTruthy] using h
      simp [getAIClient, hs]
  refine ⟨hg, by rw [hg]; simp, ?_, ?_, ?_⟩
  · intro file env hk
    have hp : parseResume file env = (POutcome.rejected JsError.missingApiKey,
        [Effect.consoleError "❌ Gemini API Key Missing!"]) := by
      rw [parseResume, hk, hg]
    exact ⟨hp, by rw [hp]; simp⟩
  · intro profile userType env hk
    have ha : analyzeProfile profile userType env =
        (POutcome.rejected JsError.missingApiKey,
          [Effect.consoleError "❌ Gemini API Key Missing!"]) := by
      rw [analyzeProfile, hk, hg]
    exact ⟨ha, by rw [ha]; simp⟩
  · intro k' hk'
    obtain ⟨s, hs, hsn⟩ := jsTruthy_elim hk'
    exact ⟨⟨s⟩, by rw [hs]; exact getAIClient_ok s hsn⟩

/-- Witness for C4 at the concrete absent credential. -/
theorem C4_witness :
    jsTruthy none = false ∧
    getAIClient none = (Except.error JsError.missingApiKey,
      [Effect.consoleError "❌ Gemini API Key Missing!"]) :=
  ⟨by decide, (C4_missing_credential none (by decide)).1⟩

/-- C5: when `parseResume` receives truthy response text that parses, the
parsed `country` field is mapped to `countryOfResidence`: an absent or
falsy `country` maps to undefined (never an empty string), a truthy
`country` passes through unchanged, and the remaining fields are copied
verbatim. -/
theorem C5_country_mapping (file : JsFile) (env : ResumeEnv)
    (h : jsTruthy env.apiKey = true) (s : String)
    (hrr : env.readerResult = some s) (resp : GenResponse)
    (hr : env.request = Except.ok resp) (t : String) (ht : resp.text = some t)
    (hts : t ≠ "") (data : ResumeData)
    (hp : env.jsonParse t = Except.ok data) :
    (parseResume file env).1 = POutcome.resolved (mapResumeData data) ∧
    ((data.country = none ∨ data.country = some "") →
      (mapResumeData data).countryOfResidence = none) ∧
    (∀ c, data.country = some c → c ≠ "" →
      (mapResumeData data).countryOfResidence = some c) ∧
    (mapResumeData data).countryOfResidence ≠ some "" ∧
    (mapResumeData data).name = data.name ∧
    (mapResumeData data).educationLevel = data.educationLevel ∧
    (mapResumeData data).fieldOfStudy = data.fieldOfStudy ∧
    (mapResumeData data).workExperienceYears = data.workExperienceYears ∧
    (mapResumeData data).englishScore = data.englishScore := by
  refine ⟨parseResume_success file env h s hrr resp hr t ht hts data hp,
    ?_, ?_, ?_, rfl, rfl, rfl, rfl, rfl⟩
  · rintro (hc | hc) <;> simp [mapResumeData, jsTruthy, hc]
  · intro c hc hcn
    simp [mapResumeData, jsTruthy, hc, hcn]
  · rcases hc : data.country with _ | c
    · simp [mapResumeData, jsTruthy, hc]
    · by_cases hcn : c = "" <;> simp [mapResumeData, jsTruthy, hc, hcn]

/-- Witness for C5 at the P3 response (no `country`) and the P4 response
(`country: "Canada"`). -/
theorem C5_witness :
    (parseResume sampleFile resumeEnvNoCountry).1 =
      POutcome.resolved (mapResumeData parsedNoCountry) ∧
    (mapResumeData parsedNoCountry).countryOfResidence = none ∧
    (parseResume sampleFile resumeEnvCanada).1 =
      POutcome.resolved (mapResumeData parsedCanada) ∧
    (mapResumeData parsedCanada).countryOfResidence = some "Canada" := by
  have h1 := C5_country_mapping sampleFile resumeEnvNoCountry (by decide)
    "data:application/pdf;base64,QUJD" rfl
    ⟨some "\x7b\"name\":\"A\",\"educationLevel\":\"B\",\"fieldOfStudy\":\"C\",\"workExperienceYears\":5\x7d"⟩
    rfl
    "\x7b\"name\":\"A\",\"educationLevel\":\"B\",\"fieldOfStudy\":\"C\",\"workExperienceYears\":5\x7d"
    rfl (by decide) parsedNoCountry rfl
  have h2 := C5_country_mapping sampleFile resumeEnvCanada (by decide)
    "data:application/pdf;base64,QUJD" rfl
    ⟨some "\x7b\"name\":\"A\",\"country\":\"Canada\",\"educationLevel\":\"B\",\"fieldOfStudy\":\"C\",\"workExperienceYears\":5\x7d"⟩
    rfl
    "\x7b\"name\":\"A\",\"country\":\"Canada\",\"educationLevel\":\"B\",\"fieldOfStudy\":\"C\",\"workExperienceYears\":5\x7d"
    rfl (by decide) parsedCanada rfl
  exact ⟨h1.1, h1.2.1 (Or.inl rfl), h2.1, h2.2.2.1 "Canada" rfl (by decide)⟩

/-- All six list fields of a runtime analysis value are present. -/
def hasAllListFields (r : AIAnalysisResult) : Bool :=
  r.riskFactors.isSome && r.strengths.isSome && r.assumptions.isSome &&
    r.recommendedPathways.isSome && r.otherPathways.isSome &&
    r.strategicAdvice.isSome

/-- C8 counterexample: a model response missing every list field is
returned unvalidated, so a caller receives an analysis value with
`riskFactors` (and the other list fields) absent — refuting the claim
that every returned value has all list fields present. -/
theorem C8_counterexample :
    (analyzeProfile sampleProfile UserType.SkilledWorker looseAnalyzeEnv).1 =
      POutcome.resolved looseAnalysis ∧
    hasAllListFields looseAnalysis = false ∧
    looseAnalysis.riskFactors = none ∧
    looseAnalysis.strengths = none ∧
    looseAnalysis.assumptions = none ∧
    looseAnalysis.recommendedPathways = none ∧
    looseAnalysis.otherPathways = none ∧
    looseAnalysis.strategicAdvice = none := by decide

/-- C8 (amended): the fallback result has every list field present
(possibly empty), and every value `analyzeProfile` resolves with is
either that fallback or exactly the parsed response, passed through with
no field-level validation — so list-field presence is guaranteed only
for the fallback. -/
theorem C8_list_fields (profile : UserProfile) (userType : UserType)
    (env : AnalyzeEnv) (h : jsTruthy env.apiKey = true) :
    hasAllListFields fallbackResult = true ∧
    (∀ r, (analyzeProfile profile userType env).1 = POutcome.resolved r →
      r = fallbackResult ∨
      ∃ resp t, env.request = Except.ok resp ∧ resp.text = some t ∧
        env.jsonParse t = Except.ok r) := by
  refine ⟨by decide, ?_⟩
  intro r hres
  rcases hr : env.request with e | resp
  · left
    have := analyzeProfile_fallback_of_failure profile userType env h
      (Or.inl ⟨e, hr⟩)
    rw [hres] at this
    exact (POutcome.resolved.injEq ..).mp this
  · rcases ht : resp.text with _ | t
    · left
      have := analyzeProfile_fallback_of_failure profile userType env h
        (Or.inr (Or.inl ⟨resp, hr, by simp [jsTruthy, ht]⟩))
      rw [hres] at this
      exact (POutcome.resolved.injEq ..).mp this
    · by_cases hts : t = ""
      · left
        have := analyzeProfile_fallback_of_failure profile userType env h
          (Or.inr (Or.inl ⟨resp, hr, by simp [jsTruthy, ht, hts]⟩))
        rw [hres] at this
        exact (POutcome.resolved.injEq ..).mp this
      · rcases hp : env.jsonParse t with e | r'
        · left
          have := analyzeProfile_fallback_of_failure profile userType env h
            (Or.inr (Or.inr ⟨resp, t, e, hr, ht, hp⟩))
          rw [hres] at this
          exact (POutcome.resolved.injEq ..).mp this
        · right
          have := analyzeProfile_success profile userType env h resp hr t ht hts r' hp
          rw [hres] at this
          have hrr : r = r' := (POutcome.resolved.injEq ..).mp this
          subst hrr
          exact ⟨resp, t, rfl, ht, hp⟩

/-- Witness for amended C8: the fallback of a concrete failing run has
all list fields present. -/
theorem C8_witness :
    jsTruthy failingAnalyzeEnv.apiKey = true ∧
    hasAllListFields fallbackResult = true :=
  ⟨by decide,
    (C8_list_fields sampleProfile UserType.Student failingAnalyzeEnv
      (by decide)).1⟩

/-- C9: `analyzeProfile` dispatches between exactly two instruction
branches — `Student` selects the student text, every other user type the
skilled-worker text — and the issued network request embeds the selected
branch in its contents. -/
theorem C9_instruction_dispatch :
    specificInstructions UserType.Student = studentInstructions ∧
    (∀ u, u ≠ UserType.Student → specificInstructions u = workerInstructions) ∧
    (∀ u, specificInstructions u = studentInstructions ∨
      specificInstructions u = workerInstructions) ∧
    studentInstructions ≠ workerInstructions ∧
    (∀ profile userType env, jsTruthy env.apiKey = true →
      Effect.networkCall "gemini-2.5-flash"
          ("\n        " ++ specificInstructions userType ++ "\n        " ++
            commonPrompt profile ++
            "\n\n        Produce structured JSON output...\n        (your original schema rules unchanged)\n      ") ∈
        (analyzeProfile profile userType env).2) := by
  refine ⟨rfl, ?_, ?_, by decide, ?_⟩
  · intro u hu
    cases u with
    | Student => exact absurd rfl hu
    | SkilledWorker => rfl
  · intro u
    cases u with
    | Student => exact Or.inl rfl
    | SkilledWorker => exact Or.inr rfl
  · intro profile userType env h
    have := analyzeProfile_networkCall profile userType env h
    simpa [analysisContents, String.append_assoc] using this

/-- Witness for C9 at the non-Student user type and a concrete run. -/
theorem C9_witness :
    specificInstructions UserType.SkilledWorker = workerInstructions ∧
    Effect.networkCall "gemini-2.5-flash"
        ("\n        " ++ specificInstructions UserType.SkilledWorker ++ "\n        " ++
          commonPrompt sampleProfile ++
          "\n\n        Produce structured JSON output...\n        (your original schema rules unchanged)\n      ") ∈
      (analyzeProfile sampleProfile UserType.SkilledWorker failingAnalyzeEnv).2 :=
  ⟨C9_instruction_dispatch.2.1 UserType.SkilledWorker (by decide),
   C9_instruction_dispatch.2.2.2.2 sampleProfile UserType.SkilledWorker
     failingAnalyzeEnv (by decide)⟩
